import Mathlib

/-!
Shallow embedding of `src/server.js` (CwaWeather-backend): a thin HTTP proxy
that resolves a requested Taiwanese administrative-region name against a fixed
allow-list, maps it to an upstream CWA dataset id, fetches the upstream
forecast payload and reshapes it into a flat forecast list.

The JSON payload shapes are embedded as Lean structures; a JavaScript value
that may be `undefined` is embedded as an `Option`, an array as a `List`.
JavaScript string truthiness (`undefined`, `""` falsy; everything else truthy)
is modelled explicitly where the code relies on it (`x || y`, `x ? a : b`).
-/

/-- JSON values, used for HTTP response bodies and upstream error bodies. -/
inductive Json where
  | str (s : String)
  | num (n : Int)
  | bool (b : Bool)
  | null
  | arr (xs : List Json)
  | obj (fields : List (String × Json))

/-- Number of fields of a JSON object (0 for non-objects); used to separate
distinct object values. -/
def Json.numFields : Json → Nat
  | .obj fields => fields.length
  | _ => 0

/-- JavaScript truthiness of an optional string: `undefined` and `""` are
falsy, every other string is truthy. -/
def jsTruthy : Option String → Bool
  | some s => s != ""
  | none => false

/-- JavaScript truthiness of a JSON value (`null`, `false`, `0`, `""` falsy). -/
def jsTruthyJson : Json → Bool
  | .null => false
  | .bool b => b
  | .num n => n != 0
  | .str s => s != ""
  | _ => true

/-- JavaScript `a || b` on two possibly-undefined strings
(`req.query.locationName || req.params.locationName`). -/
def jsOr (a b : Option String) : Option String :=
  if jsTruthy a then a else b

/-- Property access `j.name` on a parsed JSON value, as JavaScript performs
it: the access itself throws a `TypeError` when `j` is `null` (outer `none`);
otherwise it yields the field's value (`some (some v)`, last occurrence wins
as in `JSON.parse`) or `undefined` (`some none`) when `j` is not an object or
lacks the field. -/
def jsonMember (j : Json) (name : String) : Option (Option Json) :=
  match j with
  | .null => none
  | .obj fields => some (List.lookup name fields.reverse)
  | _ => some none

/-- `VALID_LOCATIONS` from `server.js` lines 19-42: the 22 supported names. -/
def VALID_LOCATIONS : List String :=
  ["宜蘭縣", "花蓮縣", "臺東縣", "澎湖縣", "金門縣", "連江縣",
   "臺北市", "新北市", "桃園市", "臺中市", "臺南市", "高雄市",
   "基隆市", "新竹縣", "新竹市", "苗栗縣", "彰化縣", "南投縣",
   "雲林縣", "嘉義縣", "嘉義市", "屏東縣"]

/-- `DEFAULT_LOCATION` from `server.js` line 45. -/
def DEFAULT_LOCATION : String := "臺中市"

/-- `LOCATION_API_MAP` from `server.js` lines 49-72, as an association list in
source order; looked up with `List.lookup`. -/
def LOCATION_API_MAP : List (String × String) :=
  [("宜蘭縣", "F-D0047-003"), ("桃園市", "F-D0047-007"), ("新竹縣", "F-D0047-011"),
   ("苗栗縣", "F-D0047-015"), ("彰化縣", "F-D0047-019"), ("南投縣", "F-D0047-023"),
   ("雲林縣", "F-D0047-027"), ("嘉義縣", "F-D0047-031"), ("屏東縣", "F-D0047-035"),
   ("臺東縣", "F-D0047-039"), ("花蓮縣", "F-D0047-043"), ("澎湖縣", "F-D0047-047"),
   ("基隆市", "F-D0047-051"), ("新竹市", "F-D0047-055"), ("嘉義市", "F-D0047-059"),
   ("臺北市", "F-D0047-063"), ("高雄市", "F-D0047-067"), ("新北市", "F-D0047-071"),
   ("臺中市", "F-D0047-075"), ("臺南市", "F-D0047-079"), ("連江縣", "F-D0047-083"),
   ("金門縣", "F-D0047-087")]

/-- Location resolution, `server.js` lines 91-96: the raw value is
`req.query.locationName || req.params.locationName`; if it is falsy or not in
`VALID_LOCATIONS` it is replaced by `DEFAULT_LOCATION`. -/
def resolveLocation (raw : Option String) : String :=
  match raw with
  | none => DEFAULT_LOCATION
  | some s => if s = "" || !(VALID_LOCATIONS.contains s) then DEFAULT_LOCATION else s

/-- One entry of a time entry's `ElementValue` array in the upstream payload.
Each field is the correspondingly named sub-field, absent (`none`) when the
upstream JSON omits it. -/
structure ElementValue where
  Weather : Option String := none
  WeatherCode : Option String := none
  Temperature : Option String := none
  ApparentTemperature : Option String := none
  ComfortIndex : Option String := none
  ProbabilityOfPrecipitation : Option String := none
  WindDirection : Option String := none
  WindSpeed : Option String := none
  RelativeHumidity : Option String := none
  WeatherDescription : Option String := none
  deriving DecidableEq

/-- One entry of a weather element's `Time` array in the upstream payload. -/
structure TimeEntry where
  StartTime : Option String := none
  EndTime : Option String := none
  ElementValue : List ElementValue := []
  deriving DecidableEq

/-- One entry of a sub-location's `WeatherElement` array. -/
structure WeatherElement where
  ElementName : String
  Time : List TimeEntry := []
  deriving DecidableEq

/-- One sub-location entry of `records.Locations[0].Location`.  Its
`WeatherElement` array may be absent, in which case the code's
`locationData.WeatherElement.forEach` throws a `TypeError`. -/
structure LocationData where
  LocationName : Option String := none
  WeatherElement : Option (List WeatherElement) := none
  deriving DecidableEq

/-- One region entry of `records.Locations`. -/
structure LocationsData where
  DatasetDescription : Option String := none
  Location : Option (List LocationData) := none
  deriving DecidableEq

/-- The `records` object of the upstream payload. -/
structure Records where
  Locations : Option (List LocationsData) := none
  deriving DecidableEq

/-- One output forecast period, as pushed onto `weatherData.forecasts`
(`server.js` lines 143-156): `startTime`/`endTime` are copied as-is and may be
absent; the ten weather attributes are strings defaulted to `""`. -/
structure Forecast where
  startTime : Option String
  endTime : Option String
  weather : String
  weatherCode : String
  rain : String
  temperature : String
  apparentTemp : String
  comfort : String
  windDirection : String
  windSpeed : String
  humidity : String
  description : String
  deriving DecidableEq

/-- The `weatherData` output object (`server.js` lines 125-130);
`district` is `locationData.LocationName`, copied without a default. -/
structure WeatherData where
  city : String
  district : Option String
  updateTime : String
  forecasts : List Forecast
  deriving DecidableEq

/-- `locationsData = response.data.records.Locations?.[0]` (line 114). -/
def locationsDataOf (records : Records) : Option LocationsData :=
  records.Locations.bind List.head?

/-- `locationData = locationsData?.Location?.[0]` (line 115). -/
def locationDataOf (records : Records) : Option LocationData :=
  ((locationsDataOf records).bind LocationsData.Location).bind List.head?

/-- The `weatherElements` table built by the `forEach` on lines 133-136:
each element assigns `weatherElements[element.ElementName] = element.Time`,
so a later element with the same name overwrites an earlier one. -/
def buildWeatherElements (elems : List WeatherElement) : String → Option (List TimeEntry) :=
  elems.foldl
    (fun acc element =>
      fun name => if name = element.ElementName then some element.Time else acc name)
    (fun _ => none)

/-- `weatherElements[name]?.[i]`: the `i`-th entry of the named series, if the
series exists and is long enough. -/
def lookupAt (weatherElements : String → Option (List TimeEntry)) (name : String) (i : Nat) :
    Option TimeEntry :=
  match weatherElements name with
  | some ts => ts[i]?
  | none => none

/-- The formatting pattern `v ? v + unit : ""` used for the numeric
attributes (lines 168, 174, 186, 197, 203). -/
def withUnit (v : Option String) (unit : String) : String :=
  match v with
  | some s => if s = "" then "" else s ++ unit
  | none => ""

/-- The loop body of `server.js` lines 141-211: one `forecast` object built
from the `i`-th master-timeline entry `timeData` and the element table. -/
def mkForecast (weatherElements : String → Option (List TimeEntry)) (i : Nat)
    (timeData : TimeEntry) : Forecast :=
  let wxValue := timeData.ElementValue.head?
  { startTime := timeData.StartTime
    endTime := timeData.EndTime
    weather := match wxValue with
      | some v => v.Weather.getD ""
      | none => ""
    weatherCode := match wxValue with
      | some v => v.WeatherCode.getD ""
      | none => ""
    temperature := match lookupAt weatherElements "溫度" i with
      | some t => withUnit ((t.ElementValue.head?).bind ElementValue.Temperature) "°C"
      | none => ""
    apparentTemp := match lookupAt weatherElements "體感溫度" i with
      | some t => withUnit ((t.ElementValue.head?).bind ElementValue.ApparentTemperature) "°C"
      | none => ""
    comfort := match lookupAt weatherElements "舒適度指數" i with
      | some t => ((t.ElementValue.head?).bind ElementValue.ComfortIndex).getD ""
      | none => ""
    rain := match lookupAt weatherElements "3小時降雨機率" i with
      | some t => withUnit ((t.ElementValue.head?).bind ElementValue.ProbabilityOfPrecipitation) "%"
      | none => ""
    windDirection := match lookupAt weatherElements "風向" i with
      | some t => ((t.ElementValue.head?).bind ElementValue.WindDirection).getD ""
      | none => ""
    windSpeed := match lookupAt weatherElements "風速" i with
      | some t => withUnit ((t.ElementValue.head?).bind ElementValue.WindSpeed) " m/s"
      | none => ""
    humidity := match lookupAt weatherElements "相對濕度" i with
      | some t => withUnit ((t.ElementValue.head?).bind ElementValue.RelativeHumidity) "%"
      | none => ""
    description := match lookupAt weatherElements "天氣預報綜合描述" i with
      | some t => ((t.ElementValue.head?).bind ElementValue.WeatherDescription).getD ""
      | none => "" }

/-- Outcome of the payload-reshaping part of `getWeather` (lines 112-217):
404 when the first sub-location entry is absent, a thrown `TypeError` when
its `WeatherElement` array is absent, otherwise the reshaped data. -/
inductive TransformResult where
  | notFound (message : String)
  | thrown
  | ok (data : WeatherData)
  deriving DecidableEq

/-- The reshaping logic of `getWeather`, `server.js` lines 112-217, as a pure
function of the upstream `records` object and the resolved location name. -/
def transform (records : Records) (locationName : String) : TransformResult :=
  match locationDataOf records with
  | none => .notFound ("無法取得" ++ locationName ++ "天氣資料")
  | some locationData =>
    match locationData.WeatherElement with
    | none => .thrown
    | some elems =>
      let weatherElements := buildWeatherElements elems
      let wxTimes := (weatherElements "天氣現象").getD []
      .ok
        { city := locationName
          district := locationData.LocationName
          updateTime := ((locationsDataOf records).bind LocationsData.DatasetDescription).getD ""
          forecasts := wxTimes.enum.map (fun p => mkForecast weatherElements p.1 p.2) }

/-- The element table of a payload, as seen by the loop (for specification;
`fun _ => none` when a table is never built). -/
def weatherElementsOf (records : Records) : String → Option (List TimeEntry) :=
  match (locationDataOf records).bind LocationData.WeatherElement with
  | some elems => buildWeatherElements elems
  | none => fun _ => none

/-- The master timeline: the "天氣現象" series of the first sub-location,
`[]` when absent (line 139). -/
def masterSeriesOf (records : Records) : List TimeEntry :=
  (weatherElementsOf records "天氣現象").getD []

/-- The named element series of the first sub-location, `[]` when absent. -/
def seriesOf (records : Records) (name : String) : List TimeEntry :=
  (weatherElementsOf records name).getD []

/-- The raw value feeding one attribute at index `i`: sub-field `field` of the
first `ElementValue` of the `i`-th entry of the named series, when all of
those exist. -/
def seriesValueAt (records : Records) (name : String) (i : Nat)
    (field : ElementValue → Option String) : Option String :=
  match (seriesOf records name)[i]? with
  | some t => (t.ElementValue.head?).bind field
  | none => none

/-- The location inputs of one request: `req.query.locationName` and
`req.params.locationName`. -/
structure HttpRequest where
  queryLocationName : Option String := none
  paramsLocationName : Option String := none

/-- An HTTP response: status code and JSON body. -/
structure HttpResponse where
  status : Nat
  body : Json

/-- Outcome of the single upstream `axios.get` call: a 2xx payload, a non-2xx
response (axios throws with `error.response` set, carrying the upstream
status and parsed body), or a transport failure (no `error.response`). -/
inductive Upstream where
  | ok (records : Records)
  | httpError (status : Nat) (body : Json)
  | transportError (message : String)

/-- `error.response.data.message || "無法取得天氣資料"` (line 228): `none` when
the member access itself throws (a `null` upstream body), otherwise the
body's truthy `message` field or the default. -/
def jsonMessageOr (body : Json) (deflt : String) : Option Json :=
  (jsonMember body "message").map (fun m =>
    match m with
    | some v => if jsTruthyJson v then v else .str deflt
    | none => .str deflt)

/-- `JSON.stringify` of an optional string field: the field is omitted when
the value is `undefined`. -/
def encodeOptField (name : String) (v : Option String) : List (String × Json) :=
  match v with
  | some s => [(name, Json.str s)]
  | none => []

/-- JSON encoding of one forecast object. -/
def encodeForecast (f : Forecast) : Json :=
  .obj (encodeOptField "startTime" f.startTime ++ encodeOptField "endTime" f.endTime ++
    [("weather", .str f.weather), ("weatherCode", .str f.weatherCode),
     ("rain", .str f.rain), ("temperature", .str f.temperature),
     ("apparentTemp", .str f.apparentTemp), ("comfort", .str f.comfort),
     ("windDirection", .str f.windDirection), ("windSpeed", .str f.windSpeed),
     ("humidity", .str f.humidity), ("description", .str f.description)])

/-- JSON encoding of the `weatherData` object. -/
def encodeWeatherData (w : WeatherData) : Json :=
  .obj ([("city", Json.str w.city)] ++ encodeOptField "district" w.district ++
    [("updateTime", Json.str w.updateTime),
     ("forecasts", Json.arr (w.forecasts.map encodeForecast))])

/-- The `TypeError` message thrown by
`locationData.WeatherElement.forEach` when `WeatherElement` is `undefined`;
it reaches the caller through the catch-all branch's `debug` field. -/
def forEachTypeError : String :=
  "Cannot read properties of undefined (reading 'forEach')"

/-- The `getWeather` handler, `server.js` lines 80-240, as a function of the
configured API key, the request's location inputs and the outcome of the
upstream call.  The result is `some response` when a response is sent, and
`none` when the handler throws inside its own `catch` block — the property
access `error.response.data.message` on a `null` upstream error body throws a
`TypeError` there, the handler's promise rejects and no response is sent. -/
def getWeather (cwaApiKey : Option String) (req : HttpRequest) (upstream : Upstream) :
    Option HttpResponse :=
  if !(jsTruthy cwaApiKey) then
    some
      { status := 500
        body := Json.obj [("error", .str "伺服器設定錯誤"),
                          ("message", .str "請在 .env 檔案中設定 CWA_API_KEY")] }
  else
    let locationName := resolveLocation (jsOr req.queryLocationName req.paramsLocationName)
    match upstream with
    | .httpError st body =>
        match jsonMessageOr body "無法取得天氣資料" with
        | some msg =>
            some
              { status := st
                body := Json.obj [("error", .str "CWA API 錯誤"),
                                  ("message", msg),
                                  ("details", body)] }
        | none => none
    | .transportError msg =>
        some
          { status := 500
            body := Json.obj [("error", .str "伺服器錯誤"),
                              ("message", .str "無法取得天氣資料，請稍後再試"),
                              ("debug", .str msg)] }
    | .ok records =>
        match transform records locationName with
        | .notFound msg =>
            some
              { status := 404
                body := Json.obj [("error", .str "查無資料"), ("message", .str msg)] }
        | .thrown =>
            some
              { status := 500
                body := Json.obj [("error", .str "伺服器錯誤"),
                                  ("message", .str "無法取得天氣資料，請稍後再試"),
                                  ("debug", .str forEachTypeError)] }
        | .ok data =>
            some
              { status := 200
                body := Json.obj [("success", .bool true),
                                  ("data", encodeWeatherData data)] }

/-- A concrete upstream payload: a master "天氣現象" timeline of two entries
(the second with no `StartTime` and an empty `ElementValue` array) and a
"溫度" series of a single entry. -/
def sampleWxTime0 : TimeEntry :=
  { StartTime := some "2026-10-11T06:00:00+08:00"
    EndTime := some "2026-10-11T18:00:00+08:00"
    ElementValue := [{ Weather := some "晴", WeatherCode := some "01" }] }

/-- Second master entry of the sample payload. -/
def sampleWxTime1 : TimeEntry :=
  { StartTime := none
    EndTime := some "2026-10-12T06:00:00+08:00"
    ElementValue := [] }

/-- The single "溫度" entry of the sample payload. -/
def sampleTempTime0 : TimeEntry :=
  { StartTime := some "2026-10-11T06:00:00+08:00"
    EndTime := some "2026-10-11T18:00:00+08:00"
    ElementValue := [{ Temperature := some "25" }] }

/-- The first sub-location of the sample payload. -/
def sampleLocationData : LocationData :=
  { LocationName := some "北區"
    WeatherElement := some
      [{ ElementName := "天氣現象", Time := [sampleWxTime0, sampleWxTime1] },
       { ElementName := "溫度", Time := [sampleTempTime0] }] }

/-- The sample upstream `records` object. -/
def sampleRecords : Records :=
  { Locations := some
      [{ DatasetDescription := some "臺中市未來1週天氣預報"
         Location := some [sampleLocationData] }] }

/-- The output `transform` produces on `sampleRecords` for "臺中市". -/
def sampleWeatherData : WeatherData :=
  { city := "臺中市"
    district := some "北區"
    updateTime := "臺中市未來1週天氣預報"
    forecasts :=
      [{ startTime := some "2026-10-11T06:00:00+08:00"
         endTime := some "2026-10-11T18:00:00+08:00"
         weather := "晴", weatherCode := "01", rain := ""
         temperature := "25°C", apparentTemp := "", comfort := ""
         windDirection := "", windSpeed := "", humidity := "", description := "" },
       { startTime := none
         endTime := some "2026-10-12T06:00:00+08:00"
         weather := "", weatherCode := "", rain := ""
         temperature := "", apparentTemp := "", comfort := ""
         windDirection := "", windSpeed := "", humidity := "", description := "" }] }

/-- An upstream payload whose region list is empty. -/
def emptyRegionRecords : Records := { Locations := some [] }

/-- An upstream payload whose first sub-location exists but has no
`WeatherElement` array. -/
def noElementsRecords : Records :=
  { Locations := some
      [{ DatasetDescription := none
         Location := some [{ LocationName := some "北區", WeatherElement := none }] }] }

/-- The upstream error body of the rate-limiting scenario. -/
def rateLimitBody : Json := Json.obj [("message", Json.str "rate limited")]

example : transform sampleRecords "臺中市" = .ok sampleWeatherData := by decide

theorem lookupAt_getD (we : String → Option (List TimeEntry)) (name : String) (i : Nat) :
    lookupAt we name i = ((we name).getD [])[i]? := by
  unfold lookupAt
  cases we name <;> simp

theorem lookupAt_weatherElementsOf (records : Records) (name : String) (i : Nat) :
    lookupAt (weatherElementsOf records) name i = (seriesOf records name)[i]? := by
  rw [lookupAt_getD]; rfl

theorem transform_ok_forecasts (records : Records) (loc : String) (data : WeatherData)
    (h : transform records loc = .ok data) :
    data.forecasts = (masterSeriesOf records).enum.map
      (fun p => mkForecast (weatherElementsOf records) p.1 p.2) := by
  unfold transform at h
  cases hld : locationDataOf records with
  | none =>
    simp only [hld] at h
    exact TransformResult.noConfusion h
  | some ld =>
    cases hwe : ld.WeatherElement with
    | none =>
      simp only [hld, hwe] at h
      exact TransformResult.noConfusion h
    | some elems =>
      simp only [hld, hwe, TransformResult.ok.injEq] at h
      subst h
      simp [weatherElementsOf, masterSeriesOf, hld, hwe]

theorem transform_ok_length (records : Records) (loc : String) (data : WeatherData)
    (h : transform records loc = .ok data) :
    data.forecasts.length = (masterSeriesOf records).length := by
  rw [transform_ok_forecasts records loc data h]
  simp [List.enum_length]

theorem transform_ok_get (records : Records) (loc : String) (data : WeatherData)
    (h : transform records loc = .ok data) (i : Nat)
    (hi : i < data.forecasts.length) (hm : i < (masterSeriesOf records).length) :
    data.forecasts.get ⟨i, hi⟩ =
      mkForecast (weatherElementsOf records) i ((masterSeriesOf records).get ⟨i, hm⟩) := by
  have hf := transform_ok_forecasts records loc data h
  simp only [List.get_eq_getElem]
  simp only [hf, List.getElem_map, List.getElem_enum]

theorem withUnit_none (u : String) : withUnit none u = "" := rfl

theorem withUnit_some_empty (u : String) : withUnit (some "") u = "" := rfl

theorem withUnit_some (v : String) (hv : v ≠ "") (u : String) :
    withUnit (some v) u = v ++ u := by
  unfold withUnit
  simp [hv]

theorem mkForecast_startTime (we : String → Option (List TimeEntry)) (i : Nat) (t : TimeEntry) :
    (mkForecast we i t).startTime = t.StartTime := rfl

theorem mkForecast_endTime (we : String → Option (List TimeEntry)) (i : Nat) (t : TimeEntry) :
    (mkForecast we i t).endTime = t.EndTime := rfl

theorem mkForecast_temperature (we : String → Option (List TimeEntry)) (i : Nat) (t : TimeEntry) :
    (mkForecast we i t).temperature =
      withUnit ((lookupAt we "溫度" i).bind
        (fun e => (e.ElementValue.head?).bind ElementValue.Temperature)) "°C" := by
  simp only [mkForecast]
  cases lookupAt we "溫度" i <;> rfl

theorem mkForecast_apparentTemp (we : String → Option (List TimeEntry)) (i : Nat) (t : TimeEntry) :
    (mkForecast we i t).apparentTemp =
      withUnit ((lookupAt we "體感溫度" i).bind
        (fun e => (e.ElementValue.head?).bind ElementValue.ApparentTemperature)) "°C" := by
  simp only [mkForecast]
  cases lookupAt we "體感溫度" i <;> rfl

theorem mkForecast_comfort (we : String → Option (List TimeEntry)) (i : Nat) (t : TimeEntry) :
    (mkForecast we i t).comfort =
      ((lookupAt we "舒適度指數" i).bind
        (fun e => (e.ElementValue.head?).bind ElementValue.ComfortIndex)).getD "" := by
  simp only [mkForecast]
  cases lookupAt we "舒適度指數" i <;> rfl

theorem mkForecast_rain (we : String → Option (List TimeEntry)) (i : Nat) (t : TimeEntry) :
    (mkForecast we i t).rain =
      withUnit ((lookupAt we "3小時降雨機率" i).bind
        (fun e => (e.ElementValue.head?).bind ElementValue.ProbabilityOfPrecipitation)) "%" := by
  simp only [mkForecast]
  cases lookupAt we "3小時降雨機率" i <;> rfl

theorem mkForecast_windDirection (we : String → Option (List TimeEntry)) (i : Nat) (t : TimeEntry) :
    (mkForecast we i t).windDirection =
      ((lookupAt we "風向" i).bind
        (fun e => (e.ElementValue.head?).bind ElementValue.WindDirection)).getD "" := by
  simp only [mkForecast]
  cases lookupAt we "風向" i <;> rfl

theorem mkForecast_windSpeed (we : String → Option (List TimeEntry)) (i : Nat) (t : TimeEntry) :
    (mkForecast we i t).windSpeed =
      withUnit ((lookupAt we "風速" i).bind
        (fun e => (e.ElementValue.head?).bind ElementValue.WindSpeed)) " m/s" := by
  simp only [mkForecast]
  cases lookupAt we "風速" i <;> rfl

theorem mkForecast_humidity (we : String → Option (List TimeEntry)) (i : Nat) (t : TimeEntry) :
    (mkForecast we i t).humidity =
      withUnit ((lookupAt we "相對濕度" i).bind
        (fun e => (e.ElementValue.head?).bind ElementValue.RelativeHumidity)) "%" := by
  simp only [mkForecast]
  cases lookupAt we "相對濕度" i <;> rfl

theorem mkForecast_description (we : String → Option (List TimeEntry)) (i : Nat) (t : TimeEntry) :
    (mkForecast we i t).description =
      ((lookupAt we "天氣預報綜合描述" i).bind
        (fun e => (e.ElementValue.head?).bind ElementValue.WeatherDescription)).getD "" := by
  simp only [mkForecast]
  cases lookupAt we "天氣預報綜合描述" i <;> rfl

theorem seriesValueAt_eq_bind (records : Records) (name : String) (i : Nat)
    (field : ElementValue → Option String) :
    seriesValueAt records name i field =
      ((seriesOf records name)[i]?).bind (fun t => (t.ElementValue.head?).bind field) := by
  unfold seriesValueAt
  cases (seriesOf records name)[i]? <;> rfl

theorem transform_ok_attrs (records : Records) (loc : String) (data : WeatherData)
    (h : transform records loc = .ok data) (i : Nat)
    (hi : i < data.forecasts.length) (hm : i < (masterSeriesOf records).length) :
    ((data.forecasts.get ⟨i, hi⟩).temperature =
        withUnit (seriesValueAt records "溫度" i ElementValue.Temperature) "°C") ∧
    ((data.forecasts.get ⟨i, hi⟩).apparentTemp =
        withUnit (seriesValueAt records "體感溫度" i ElementValue.ApparentTemperature) "°C") ∧
    ((data.forecasts.get ⟨i, hi⟩).comfort =
        (seriesValueAt records "舒適度指數" i ElementValue.ComfortIndex).getD "") ∧
    ((data.forecasts.get ⟨i, hi⟩).rain =
        withUnit (seriesValueAt records "3小時降雨機率" i
          ElementValue.ProbabilityOfPrecipitation) "%") ∧
    ((data.forecasts.get ⟨i, hi⟩).windDirection =
        (seriesValueAt records "風向" i ElementValue.WindDirection).getD "") ∧
    ((data.forecasts.get ⟨i, hi⟩).windSpeed =
        withUnit (seriesValueAt records "風速" i ElementValue.WindSpeed) " m/s") ∧
    ((data.forecasts.get ⟨i, hi⟩).humidity =
        withUnit (seriesValueAt records "相對濕度" i ElementValue.RelativeHumidity) "%") ∧
    ((data.forecasts.get ⟨i, hi⟩).description =
        (seriesValueAt records "天氣預報綜合描述" i ElementValue.WeatherDescription).getD "") := by
  have hg := transform_ok_get records loc data h i hi hm
  refine ⟨?_, ?_, ?_, ?_, ?_, ?_, ?_, ?_⟩
  · rw [hg, mkForecast_temperature, lookupAt_weatherElementsOf, seriesValueAt_eq_bind]
  · rw [hg, mkForecast_apparentTemp, lookupAt_weatherElementsOf, seriesValueAt_eq_bind]
  · rw [hg, mkForecast_comfort, lookupAt_weatherElementsOf, seriesValueAt_eq_bind]
  · rw [hg, mkForecast_rain, lookupAt_weatherElementsOf, seriesValueAt_eq_bind]
  · rw [hg, mkForecast_windDirection, lookupAt_weatherElementsOf, seriesValueAt_eq_bind]
  · rw [hg, mkForecast_windSpeed, lookupAt_weatherElementsOf, seriesValueAt_eq_bind]
  · rw [hg, mkForecast_humidity, lookupAt_weatherElementsOf, seriesValueAt_eq_bind]
  · rw [hg, mkForecast_description, lookupAt_weatherElementsOf, seriesValueAt_eq_bind]

/-- Claim C1: for every upstream payload, the number of forecast periods in
the transformer's output equals the length of the "天氣現象" (weather
phenomenon) series of the first sub-location; if that series is absent or
empty the output has zero periods, regardless of the other series' lengths. -/
theorem C1_period_count (records : Records) (loc : String) (data : WeatherData)
    (h : transform records loc = .ok data) :
    data.forecasts.length = (masterSeriesOf records).length ∧
    (weatherElementsOf records "天氣現象" = none → data.forecasts.length = 0) ∧
    (masterSeriesOf records = [] → data.forecasts.length = 0) := by
  have hl := transform_ok_length records loc data h
  refine ⟨hl, fun habs => ?_, fun hemp => ?_⟩
  · rw [hl]; unfold masterSeriesOf; rw [habs]; rfl
  · rw [hl, hemp]; rfl

/-- Witness for C1 on the sample payload (master timeline of length 2). -/
theorem C1_period_count_witness :
    sampleWeatherData.forecasts.length = (masterSeriesOf sampleRecords).length ∧
    (weatherElementsOf sampleRecords "天氣現象" = none →
      sampleWeatherData.forecasts.length = 0) ∧
    (masterSeriesOf sampleRecords = [] → sampleWeatherData.forecasts.length = 0) :=
  C1_period_count sampleRecords "臺中市" sampleWeatherData (by decide)

/-- Claim C2: for every index `i` of the master timeline, each other
attribute series is read at exactly index `i` — the attribute value is a
function of that series' entry at `i` alone, with an empty-string default
when the series is missing or too short (in particular `temperature = ""`
beyond the "溫度" series' length), never an error and never a shift. -/
theorem C2_index_alignment (records : Records) (loc : String) (data : WeatherData)
    (h : transform records loc = .ok data) (i : Nat) (hi : i < data.forecasts.length) :
    ((data.forecasts.get ⟨i, hi⟩).temperature =
        withUnit (seriesValueAt records "溫度" i ElementValue.Temperature) "°C") ∧
    ((data.forecasts.get ⟨i, hi⟩).apparentTemp =
        withUnit (seriesValueAt records "體感溫度" i ElementValue.ApparentTemperature) "°C") ∧
    ((data.forecasts.get ⟨i, hi⟩).comfort =
        (seriesValueAt records "舒適度指數" i ElementValue.ComfortIndex).getD "") ∧
    ((data.forecasts.get ⟨i, hi⟩).rain =
        withUnit (seriesValueAt records "3小時降雨機率" i
          ElementValue.ProbabilityOfPrecipitation) "%") ∧
    ((data.forecasts.get ⟨i, hi⟩).windDirection =
        (seriesValueAt records "風向" i ElementValue.WindDirection).getD "") ∧
    ((data.forecasts.get ⟨i, hi⟩).windSpeed =
        withUnit (seriesValueAt records "風速" i ElementValue.WindSpeed) " m/s") ∧
    ((data.forecasts.get ⟨i, hi⟩).humidity =
        withUnit (seriesValueAt records "相對濕度" i ElementValue.RelativeHumidity) "%") ∧
    ((data.forecasts.get ⟨i, hi⟩).description =
        (seriesValueAt records "天氣預報綜合描述" i ElementValue.WeatherDescription).getD "") ∧
    ((seriesOf records "溫度").length ≤ i → (data.forecasts.get ⟨i, hi⟩).temperature = "") := by
  have hm : i < (masterSeriesOf records).length := by
    have := transform_ok_length records loc data h
    omega
  have ha := transform_ok_attrs records loc data h i hi hm
  obtain ⟨h1, h2, h3, h4, h5, h6, h7, h8⟩ := ha
  refine ⟨h1, h2, h3, h4, h5, h6, h7, h8, fun hle => ?_⟩
  rw [h1, seriesValueAt_eq_bind, List.getElem?_eq_none hle]
  rfl

/-- Witness for C2 on the sample payload at index 1, which lies beyond the
single-entry "溫度" series: the attribute reads index 1 of that series
(absent) and defaults to the empty string. -/
theorem C2_index_alignment_witness :
    ((sampleWeatherData.forecasts.get ⟨1, by decide⟩).temperature =
        withUnit (seriesValueAt sampleRecords "溫度" 1 ElementValue.Temperature) "°C") ∧
    (sampleWeatherData.forecasts.get ⟨1, by decide⟩).temperature = "" := by
  have h := C2_index_alignment sampleRecords "臺中市" sampleWeatherData (by decide) 1 (by decide)
  exact ⟨h.1, h.2.2.2.2.2.2.2.2 (by decide)⟩

/-- Claim C7: for each numeric attribute (temperature, apparent temperature,
wind speed, precipitation probability, humidity), a present non-empty raw
value `v` at index `i` renders with the fixed unit suffix appended
(`°C`, `°C`, `" m/s"`, `%`, `%`); an absent or empty raw value renders as
the empty string. -/
theorem C7_unit_suffix (records : Records) (loc : String) (data : WeatherData)
    (h : transform records loc = .ok data) (i : Nat) (hi : i < data.forecasts.length) :
    (∀ v, seriesValueAt records "溫度" i ElementValue.Temperature = some v → v ≠ "" →
        (data.forecasts.get ⟨i, hi⟩).temperature = v ++ "°C") ∧
    ((seriesValueAt records "溫度" i ElementValue.Temperature = none ∨
      seriesValueAt records "溫度" i ElementValue.Temperature = some "") →
        (data.forecasts.get ⟨i, hi⟩).temperature = "") ∧
    (∀ v, seriesValueAt records "體感溫度" i ElementValue.ApparentTemperature = some v →
        v ≠ "" → (data.forecasts.get ⟨i, hi⟩).apparentTemp = v ++ "°C") ∧
    ((seriesValueAt records "體感溫度" i ElementValue.ApparentTemperature = none ∨
      seriesValueAt records "體感溫度" i ElementValue.ApparentTemperature = some "") →
        (data.forecasts.get ⟨i, hi⟩).apparentTemp = "") ∧
    (∀ v, seriesValueAt records "風速" i ElementValue.WindSpeed = some v → v ≠ "" →
        (data.forecasts.get ⟨i, hi⟩).windSpeed = v ++ " m/s") ∧
    ((seriesValueAt records "風速" i ElementValue.WindSpeed = none ∨
      seriesValueAt records "風速" i ElementValue.WindSpeed = some "") →
        (data.forecasts.get ⟨i, hi⟩).windSpeed = "") ∧
    (∀ v, seriesValueAt records "3小時降雨機率" i
        ElementValue.ProbabilityOfPrecipitation = some v → v ≠ "" →
        (data.forecasts.get ⟨i, hi⟩).rain = v ++ "%") ∧
    ((seriesValueAt records "3小時降雨機率" i
        ElementValue.ProbabilityOfPrecipitation = none ∨
      seriesValueAt records "3小時降雨機率" i
        ElementValue.ProbabilityOfPrecipitation = some "") →
        (data.forecasts.get ⟨i, hi⟩).rain = "") ∧
    (∀ v, seriesValueAt records "相對濕度" i ElementValue.RelativeHumidity = some v →
        v ≠ "" → (data.forecasts.get ⟨i, hi⟩).humidity = v ++ "%") ∧
    ((seriesValueAt records "相對濕度" i ElementValue.RelativeHumidity = none ∨
      seriesValueAt records "相對濕度" i ElementValue.RelativeHumidity = some "") →
        (data.forecasts.get ⟨i, hi⟩).humidity = "") := by
  have hm : i < (masterSeriesOf records).length := by
    have := transform_ok_length records loc data h
    omega
  obtain ⟨h1, h2, h3, h4, h5, h6, h7, h8⟩ := transform_ok_attrs records loc data h i hi hm
  refine ⟨fun v hv hne => ?_, fun hv => ?_, fun v hv hne => ?_, fun hv => ?_,
    fun v hv hne => ?_, fun hv => ?_, fun v hv hne => ?_, fun hv => ?_,
    fun v hv hne => ?_, fun hv => ?_⟩
  · rw [h1, hv, withUnit_some v hne]
  · rcases hv with hv | hv <;> rw [h1, hv] <;> rfl
  · rw [h2, hv, withUnit_some v hne]
  · rcases hv with hv | hv <;> rw [h2, hv] <;> rfl
  · rw [h6, hv, withUnit_some v hne]
  · rcases hv with hv | hv <;> rw [h6, hv] <;> rfl
  · rw [h4, hv, withUnit_some v hne]
  · rcases hv with hv | hv <;> rw [h4, hv] <;> rfl
  · rw [h7, hv, withUnit_some v hne]
  · rcases hv with hv | hv <;> rw [h7, hv] <;> rfl

/-- Witness for C7 on the sample payload at index 0: the present temperature
"25" renders as "25°C", the absent wind speed renders as "". -/
theorem C7_unit_suffix_witness :
    (sampleWeatherData.forecasts.get ⟨0, by decide⟩).temperature = "25" ++ "°C" ∧
    (sampleWeatherData.forecasts.get ⟨0, by decide⟩).windSpeed = "" := by
  have h := C7_unit_suffix sampleRecords "臺中市" sampleWeatherData (by decide) 0 (by decide)
  exact ⟨h.1 "25" (by decide) (by decide), h.2.2.2.2.2.1 (Or.inl (by decide))⟩

/-- Claim C10: each forecast period's `startTime` and `endTime` are copied
verbatim from the corresponding master-timeline entry, with no empty-string
default: an absent `StartTime`/`EndTime` stays absent, unlike the ten
weather attributes. -/
theorem C10_times_verbatim (records : Records) (loc : String) (data : WeatherData)
    (h : transform records loc = .ok data) (i : Nat)
    (hi : i < data.forecasts.length) (hm : i < (masterSeriesOf records).length) :
    (data.forecasts.get ⟨i, hi⟩).startTime =
      ((masterSeriesOf records).get ⟨i, hm⟩).StartTime ∧
    (data.forecasts.get ⟨i, hi⟩).endTime =
      ((masterSeriesOf records).get ⟨i, hm⟩).EndTime := by
  have hg := transform_ok_get records loc data h i hi hm
  exact ⟨by rw [hg, mkForecast_startTime], by rw [hg, mkForecast_endTime]⟩

/-- Witness for C10 on the sample payload at index 1, whose master entry has
no `StartTime`: the output `startTime` is absent, not an empty string. -/
theorem C10_times_verbatim_witness :
    ((sampleWeatherData.forecasts.get ⟨1, by decide⟩).startTime =
        ((masterSeriesOf sampleRecords).get ⟨1, by decide⟩).StartTime) ∧
    (sampleWeatherData.forecasts.get ⟨1, by decide⟩).startTime = none := by
  have h := C10_times_verbatim sampleRecords "臺中市" sampleWeatherData
    (by decide) 1 (by decide) (by decide)
  exact ⟨h.1, by decide⟩

/-- Claim C8: the transformation from raw payload and resolved location to
the output is deterministic — it is embedded as a pure function of its
arguments (the handler reads no clock, randomness or mutable state on this
path), so two applications to the same input are equal. -/
theorem C8_deterministic (records : Records) (locationName : String) :
    transform records locationName = transform records locationName ∧
    ∀ (cwaApiKey : Option String) (req : HttpRequest) (upstream : Upstream),
      getWeather cwaApiKey req upstream = getWeather cwaApiKey req upstream :=
  ⟨rfl, fun _ _ _ => rfl⟩

/-- Claim C3: an absent raw location or one outside the 22-name allow-list
resolves to the configured default (臺中市) with no error; a member of the
allow-list is returned unchanged. -/
theorem C3_resolver (raw : Option String) :
    ((raw = none ∨ ∃ s, raw = some s ∧ s ∉ VALID_LOCATIONS) →
        resolveLocation raw = DEFAULT_LOCATION) ∧
    (∀ s, raw = some s → s ∈ VALID_LOCATIONS → resolveLocation raw = s) := by
  constructor
  · rintro (h | ⟨s, rfl, hs⟩)
    · subst h; rfl
    · have hc : VALID_LOCATIONS.contains s = false := by simpa using hs
      show (if (decide (s = "") || !VALID_LOCATIONS.contains s) = true
        then DEFAULT_LOCATION else s) = DEFAULT_LOCATION
      rw [hc]
      simp
  · rintro s rfl hs
    have hc : VALID_LOCATIONS.contains s = true := by simpa using hs
    have hne : s ≠ "" := by
      have hall : ∀ x ∈ VALID_LOCATIONS, x ≠ "" := by decide
      exact hall s hs
    show (if (decide (s = "") || !VALID_LOCATIONS.contains s) = true
      then DEFAULT_LOCATION else s) = s
    rw [hc]
    simp [hne]

/-- Witness for C3: an unknown name resolves to the default, a listed name
is returned unchanged. -/
theorem C3_resolver_witness :
    resolveLocation (some "Paris") = DEFAULT_LOCATION ∧
    resolveLocation (some "臺北市") = "臺北市" :=
  ⟨(C3_resolver (some "Paris")).1 (Or.inr ⟨"Paris", rfl, by decide⟩),
   (C3_resolver (some "臺北市")).2 "臺北市" rfl (by decide)⟩

/-- Claim C4: the location-to-dataset-id table is total and injective over
the 22 allow-listed names: every name has an id, and distinct names have
distinct ids. -/
theorem C4_map_total_injective :
    (∀ s ∈ VALID_LOCATIONS, (List.lookup s LOCATION_API_MAP).isSome) ∧
    (∀ a ∈ VALID_LOCATIONS, ∀ b ∈ VALID_LOCATIONS,
      List.lookup a LOCATION_API_MAP = List.lookup b LOCATION_API_MAP → a = b) := by
  decide

/-- Witness for C4: a listed name has a dataset id. -/
theorem C4_map_total_injective_witness :
    (List.lookup "臺北市" LOCATION_API_MAP).isSome :=
  C4_map_total_injective.1 "臺北市" (by decide)

/-- Claim C6: when the first region entry or its first sub-location entry is
absent from the upstream payload (`locationDataOf records = none`, which
covers an empty region list), the proxy responds HTTP 404 with an
`{error, message}` body and no forecast result is produced. -/
theorem C6_not_found (cwaApiKey : Option String) (req : HttpRequest) (records : Records)
    (hkey : jsTruthy cwaApiKey = true)
    (habs : locationDataOf records = none) :
    getWeather cwaApiKey req (.ok records) =
      some
        { status := 404
          body := Json.obj [("error", Json.str "查無資料"),
            ("message", Json.str ("無法取得" ++
              resolveLocation (jsOr req.queryLocationName req.paramsLocationName) ++
              "天氣資料"))] } := by
  simp [getWeather, transform, hkey, habs]

/-- Witness for C6 on a payload with an empty region list. -/
theorem C6_not_found_witness :
    jsTruthy (some "test-key") = true ∧
    getWeather (some "test-key") {} (.ok emptyRegionRecords) =
      some
        { status := 404
          body := Json.obj [("error", Json.str "查無資料"),
            ("message", Json.str ("無法取得" ++ resolveLocation (jsOr none none) ++
              "天氣資料"))] } :=
  ⟨by decide, C6_not_found (some "test-key") {} emptyRegionRecords (by decide) (by decide)⟩

/-- Claim C9: when the first sub-location entry exists but its
`WeatherElement` list is absent, the transformation throws and the request is
answered by the catch-all branch as HTTP 500 with an `{error, message, debug}`
body — not by the 404 not-found branch, which covers only a missing region or
sub-location entry. -/
theorem C9_missing_element_list (cwaApiKey : Option String) (req : HttpRequest)
    (records : Records) (ld : LocationData)
    (hkey : jsTruthy cwaApiKey = true)
    (hld : locationDataOf records = some ld)
    (hwe : ld.WeatherElement = none) :
    getWeather cwaApiKey req (.ok records) =
      some
        { status := 500
          body := Json.obj [("error", Json.str "伺服器錯誤"),
                            ("message", Json.str "無法取得天氣資料，請稍後再試"),
                            ("debug", Json.str forEachTypeError)] } := by
  simp [getWeather, transform, hkey, hld, hwe]

/-- Witness for C9 on a payload whose sub-location has no element list. -/
theorem C9_missing_element_list_witness :
    getWeather (some "test-key") {} (.ok noElementsRecords) =
      some
        { status := 500
          body := Json.obj [("error", Json.str "伺服器錯誤"),
                            ("message", Json.str "無法取得天氣資料，請稍後再試"),
                            ("debug", Json.str forEachTypeError)] } :=
  C9_missing_element_list (some "test-key") {} noElementsRecords
    { LocationName := some "北區", WeatherElement := none }
    (by decide) (by decide) (by decide)

/-- Counterexample to claim C5 as stated: on an upstream 503 whose body is
`{message: "rate limited"}` the proxy sends a response echoing the status but
does not pass the body through unmodified — it wraps it in
`{error, message, details}`. -/
theorem C5_counterexample :
    (getWeather (some "test-key") {} (.httpError 503 rateLimitBody)).map
      HttpResponse.status = some 503 ∧
    (getWeather (some "test-key") {} (.httpError 503 rateLimitBody)).map
      HttpResponse.body ≠ some rateLimitBody := by
  refine ⟨rfl, fun hcontra => ?_⟩
  have h3 : ((getWeather (some "test-key") {} (.httpError 503 rateLimitBody)).map
      HttpResponse.body).map Json.numFields = some 3 := rfl
  rw [hcontra] at h3
  have h1 : (some rateLimitBody).map Json.numFields = some 1 := rfl
  rw [h1] at h3
  exact absurd h3 (by decide)

/-- Claim C5 as amended: on a non-2xx upstream response whose body is not
JSON `null`, the proxy echoes the upstream status code and responds with an
`{error, message, details}` body whose `details` is the upstream body
unmodified and whose `message` is the upstream body's truthy `message` field
or a fixed default; on a `null` upstream error body the message extraction in
the catch block itself throws and no response is sent; on a transport failure
the proxy responds HTTP 500 with a fixed local body; no retry in any case. -/
theorem C5_upstream_error_passthrough (cwaApiKey : Option String) (req : HttpRequest)
    (st : Nat) (body : Json) (hkey : jsTruthy cwaApiKey = true) :
    (∀ m, jsonMessageOr body "無法取得天氣資料" = some m →
      getWeather cwaApiKey req (.httpError st body) =
        some
          { status := st
            body := Json.obj [("error", Json.str "CWA API 錯誤"),
                              ("message", m),
                              ("details", body)] }) ∧
    (body = Json.null → getWeather cwaApiKey req (.httpError st body) = none) ∧
    ∀ msg, getWeather cwaApiKey req (.transportError msg) =
      some
        { status := 500
          body := Json.obj [("error", Json.str "伺服器錯誤"),
                            ("message", Json.str "無法取得天氣資料，請稍後再試"),
                            ("debug", Json.str msg)] } := by
  refine ⟨fun m hm => ?_, fun hnull => ?_, fun msg => ?_⟩
  · simp [getWeather, hkey, hm]
  · subst hnull
    simp [getWeather, hkey, jsonMessageOr, jsonMember]
  · simp [getWeather, hkey]

/-- Witness for the amended C5: the 503 rate-limiting scenario gets the
wrapped response, and a `null` upstream error body gets no response. -/
theorem C5_upstream_error_passthrough_witness :
    getWeather (some "test-key") {} (.httpError 503 rateLimitBody) =
      some
        { status := 503
          body := Json.obj [("error", Json.str "CWA API 錯誤"),
                            ("message", Json.str "rate limited"),
                            ("details", rateLimitBody)] } ∧
    getWeather (some "test-key") {} (.httpError 503 Json.null) = none := by
  constructor
  · have h := (C5_upstream_error_passthrough (some "test-key") {} 503 rateLimitBody
      (by decide)).1
    exact h (Json.str "rate limited") rfl
  · exact (C5_upstream_error_passthrough (some "test-key") {} 503 Json.null
      (by decide)).2.1 rfl
